import Mathlib

/-!
Verification of the enum demonstration script (src/python/enumtest.py).

The script defines a Python `enum.Enum` subclass `Card` with four members
(HEARTS and DIAMONDS auto-valued, CLUBS and SPADES tagged with the strings
"C" and "S"), a `color` method classifying each member as "Black" or "Red",
then prints, for each member in declaration order, its `str`, its `repr`
and its color, and finally the result of `Card.HEARTS == Card.HEARTS`.

We embed the enum as a Lean inductive with four constructors, the Python
member values as an explicit value function (Python's `enum.auto()` assigns
the successive integers 1 and 2 to the first two members), and the `str`,
`repr` and boolean renderings of CPython for plain `Enum` members.
-/

/-- A Python enum member value: in this script each member's value is either
an auto-assigned integer or an explicit one-character string tag. -/
inductive EnumValue where
  | intVal : Nat → EnumValue
  | strVal : String → EnumValue
deriving DecidableEq, Repr

/-- The `Card` enum of the script: four members in declaration order
HEARTS, DIAMONDS, CLUBS, SPADES. -/
inductive Card where
  | HEARTS
  | DIAMONDS
  | CLUBS
  | SPADES
deriving DecidableEq, Repr, Fintype

/-- The value attached to each member. `enum.auto()` assigns 1 to HEARTS and
2 to DIAMONDS; CLUBS and SPADES carry the explicit string tags "C" and "S". -/
def Card.value : Card → EnumValue
  | Card.HEARTS => EnumValue.intVal 1
  | Card.DIAMONDS => EnumValue.intVal 2
  | Card.CLUBS => EnumValue.strVal "C"
  | Card.SPADES => EnumValue.strVal "S"

/-- The member name, as declared in the class body. -/
def Card.memberName : Card → String
  | Card.HEARTS => "HEARTS"
  | Card.DIAMONDS => "DIAMONDS"
  | Card.CLUBS => "CLUBS"
  | Card.SPADES => "SPADES"

/-- `Card.color`: the method of the script.  It tests membership of `self`
in the list `[self.CLUBS, self.SPADES]` and returns "Black" on a hit,
"Red" otherwise. -/
def Card.color (self : Card) : String :=
  if [Card.CLUBS, Card.SPADES].contains self then "Black" else "Red"

/-- Python `str` of a plain `Enum` member: `"Card.<NAME>"`. -/
def pyStr (c : Card) : String := "Card." ++ c.memberName

/-- Python `repr` of a member value: integers render bare, strings render
between single quotes. -/
def EnumValue.pyValueRepr : EnumValue → String
  | EnumValue.intVal n => toString n
  | EnumValue.strVal s => "\x27" ++ s ++ "\x27"

/-- Python `repr` of a plain `Enum` member: `"<Card.<NAME>: <value repr>>"`. -/
def pyRepr (c : Card) : String :=
  "<Card." ++ c.memberName ++ ": " ++ c.value.pyValueRepr ++ ">"

/-- Python rendering of a boolean (`print` of a bool). -/
def pyBool (b : Bool) : String := if b then "True" else "False"

/-- Iterating `Card` (the `for card in (Card):` loop) yields the members in
declaration order. -/
def cardList : List Card :=
  [Card.HEARTS, Card.DIAMONDS, Card.CLUBS, Card.SPADES]

/-- The five lines the loop body prints for one member. -/
def cardBlock (c : Card) : List String :=
  ["As a string: " ++ pyStr c,
   "As a repr: ",
   pyRepr c,
   Card.color c,
   "-----"]

/-- The complete console output of the script: the loop blocks in iteration
order, then the two trailing lines. -/
def programOutput : List String :=
  (cardList.map cardBlock).flatten ++
    ["Are they equal?", pyBool (Card.HEARTS == Card.HEARTS)]

/-- The script falls off the end of the module, so CPython exits with 0. -/
def exitCode : Nat := 0

/-- The whole program as its observable result: output lines and exit code. -/
def runProgram : List String × Nat := (programOutput, exitCode)

/-- Two successive calls of the same operation on the same member, modelling
the "call it twice" purity scenario. -/
def callTwice (f : Card → String) (v : Card) : String × String := (f v, f v)

/-- A classification that inspects only the member identity (the constructor),
never the attached value: used to show `Card.color` does not read the tags. -/
def colorByIdentity : Card → String
  | Card.CLUBS => "Black"
  | Card.SPADES => "Black"
  | _ => "Red"

/-- Claim C1: for every Card variant v, `Card.color v` is "Black" exactly when
v is CLUBS or SPADES, is "Red" exactly when v is HEARTS or DIAMONDS, and the
result is always one of these two classifications. -/
theorem C1_color_classification :
    ∀ v : Card,
      (Card.color v = "Black" ↔ (v = Card.CLUBS ∨ v = Card.SPADES)) ∧
      (Card.color v = "Red" ↔ (v = Card.HEARTS ∨ v = Card.DIAMONDS)) ∧
      (Card.color v = "Black" ∨ Card.color v = "Red") := by
  decide

/-- Claim C2: iterating the enum yields exactly the four members, in the
declaration order HEARTS, DIAMONDS, CLUBS, SPADES, with no duplicates and no
omissions; `cardList` is a fixed constant, so every iteration is the same. -/
theorem C2_iteration_order :
    cardList = [Card.HEARTS, Card.DIAMONDS, Card.CLUBS, Card.SPADES] ∧
    cardList.length = 4 ∧
    cardList.Nodup ∧
    (∀ c : Card, c ∈ cardList) := by
  refine ⟨rfl, rfl, ?_, ?_⟩ <;> decide

/-- Claim C3: every variant compares equal to itself; in particular the final
comparison of HEARTS with itself is true and the last printed line is the
canonical true literal "True". -/
theorem C3_reflexive_equality :
    (∀ v : Card, (v == v) = true) ∧
    (Card.HEARTS == Card.HEARTS) = true ∧
    programOutput.getLast? = some "True" := by
  refine ⟨?_, ?_, ?_⟩ <;> decide

/-- Claim C4: any two distinct variants compare unequal, and the type has
exactly four distinct values (the member list has length 4 and no repeats). -/
theorem C4_distinct_unequal :
    (∀ v1 v2 : Card, v1 ≠ v2 → (v1 == v2) = false) ∧
    cardList.Nodup ∧ cardList.length = 4 := by
  refine ⟨?_, ?_, rfl⟩ <;> decide

/-- Witness for C4 at a concrete pair of distinct members. -/
theorem C4_distinct_unequal_witness :
    (Card.HEARTS == Card.DIAMONDS) = false :=
  C4_distinct_unequal.1 Card.HEARTS Card.DIAMONDS (by decide)

/-- Claim C5: the console output is, per variant in declaration order, the
five lines (string line, "As a repr: ", repr line, color, separator), then
"Are they equal?" and the boolean line. -/
theorem C5_console_output :
    programOutput =
      ["As a string: Card.HEARTS", "As a repr: ", "<Card.HEARTS: 1>",
       "Red", "-----",
       "As a string: Card.DIAMONDS", "As a repr: ", "<Card.DIAMONDS: 2>",
       "Red", "-----",
       "As a string: Card.CLUBS", "As a repr: ", "<Card.CLUBS: \x27C\x27>",
       "Black", "-----",
       "As a string: Card.SPADES", "As a repr: ", "<Card.SPADES: \x27S\x27>",
       "Black", "-----",
       "Are they equal?", "True"] := by
  rfl

/-- Counterexample to claim C6: the tag value of CLUBS IS displayed -- the
repr line printed for CLUBS is in the output and carries the tag character C
between single quotes, so the output does contain the tag characters. -/
theorem C6_counterexample :
    pyRepr Card.CLUBS ∈ programOutput ∧
    pyRepr Card.CLUBS = "<Card.CLUBS: " ++ "\x27C\x27" ++ ">" ∧
    (pyRepr Card.CLUBS).data.contains (Char.ofNat 67) = true := by
  refine ⟨?_, rfl, ?_⟩ <;> decide

/-- Claim C6 as amended: the tag values "C" and "S" are not read by the
classification (which depends only on member identity), but they ARE
displayed -- the repr lines printed for CLUBS and SPADES contain the tag
characters verbatim, so their presence is observable in the output. -/
theorem C6_tags_observable :
    pyRepr Card.CLUBS ∈ programOutput ∧
    pyRepr Card.SPADES ∈ programOutput ∧
    pyRepr Card.CLUBS = "<Card.CLUBS: " ++ "\x27C\x27" ++ ">" ∧
    pyRepr Card.SPADES = "<Card.SPADES: " ++ "\x27S\x27" ++ ">" ∧
    (∀ v : Card, Card.color v = colorByIdentity v) := by
  refine ⟨?_, ?_, rfl, rfl, ?_⟩ <;> decide

/-- Claim C7: for every variant, the debug string differs from the display
string, and the debug string determines the variant (it is unambiguous). -/
theorem C7_repr_differs_from_str :
    (∀ v : Card, pyRepr v ≠ pyStr v) ∧
    (∀ v w : Card, pyRepr v = pyRepr w ↔ v = w) := by
  refine ⟨?_, ?_⟩ <;> decide

/-- Witness for C7 at a concrete member. -/
theorem C7_repr_differs_from_str_witness :
    pyRepr Card.HEARTS ≠ pyStr Card.HEARTS :=
  C7_repr_differs_from_str.1 Card.HEARTS

/-- Claim C8: str, repr and color are pure and deterministic -- calling any of
them twice on the same variant yields the same pair of results, and the
variant enumeration is a fixed constant unchanged by any operation. -/
theorem C8_pure_deterministic :
    ∀ v : Card,
      (callTwice pyStr v).1 = (callTwice pyStr v).2 ∧
      (callTwice pyRepr v).1 = (callTwice pyRepr v).2 ∧
      (callTwice Card.color v).1 = (callTwice Card.color v).2 ∧
      cardList = [Card.HEARTS, Card.DIAMONDS, Card.CLUBS, Card.SPADES] := by
  intro v
  exact ⟨rfl, rfl, rfl, rfl⟩

/-- Claim C9: every operation is total on the closed four-member domain --
color always yields one of its two answers, str and repr always yield
nonempty strings, the program produces its full 22-line output and
terminates with exit code 0. -/
theorem C9_totality_exit_zero :
    runProgram.2 = 0 ∧
    runProgram.1.length = 22 ∧
    (∀ v : Card, Card.color v = "Black" ∨ Card.color v = "Red") ∧
    (∀ v : Card, 0 < (pyStr v).length ∧ 0 < (pyRepr v).length) := by
  refine ⟨rfl, rfl, ?_, ?_⟩ <;> decide

/-- Claim C10: the repr of each member exposes its underlying value -- the
auto-assigned ordinals 1 and 2 for HEARTS and DIAMONDS, the quoted tags for
CLUBS and SPADES -- and the tag characters appear verbatim in the output. -/
theorem C10_repr_exposes_values :
    pyRepr Card.HEARTS = "<Card.HEARTS: 1>" ∧
    pyRepr Card.DIAMONDS = "<Card.DIAMONDS: 2>" ∧
    pyRepr Card.CLUBS = "<Card.CLUBS: \x27C\x27>" ∧
    pyRepr Card.SPADES = "<Card.SPADES: \x27S\x27>" ∧
    "<Card.CLUBS: \x27C\x27>" ∈ programOutput ∧
    "<Card.SPADES: \x27S\x27>" ∈ programOutput := by
  refine ⟨rfl, rfl, rfl, rfl, ?_, ?_⟩ <;> decide
